import Mathlib

/-!
Shallow embedding of the uplo-tech/log package (src/log.go): a logging
facade over a line writer, with release-mode-dependent escalation and a
synchronized closeable file wrapper.

Go values that may panic are modelled with explicit result types; the
underlying file operations (write, sync, close) are nondeterministic
environment outcomes passed in as parameters.
-/

namespace UploLog

/-- `ReleaseType` is a Go `uint`. -/
abbrev ReleaseType := Nat

/-- `ReleaseTypeError` is an uninitialized `ReleaseType` (iota = 0). -/
def ReleaseTypeError : ReleaseType := 0

/-- `Release` is the release type used for production builds. -/
def Release : ReleaseType := 1

/-- `Dev` is the release type used for dev builds. -/
def Dev : ReleaseType := 2

/-- `Testing` is the release type used for testing builds. -/
def Testing : ReleaseType := 3

/-- Result of a Go computation that may panic instead of returning. -/
inductive GoResult (α : Type) where
  | ok (a : α)
  | panicked (payload : String)
  deriving DecidableEq, Repr

/-- `ReleaseType.String` from src/log.go lines 61-76: returns the textual
name of a valid release type and panics on the sentinel or any unknown
value. -/
def ReleaseType.string (rt : ReleaseType) : GoResult String :=
  if rt = ReleaseTypeError then .panicked "uninitialized release type"
  else if rt = Release then .ok "release"
  else if rt = Dev then .ok "dev"
  else if rt = Testing then .ok "testing"
  else .panicked "unknown release type"

/-- How Go's `fmt` renders a value whose `String()` method panics: the
panic is recovered inside `fmt` and rendered inline instead of
propagating (relevant only to `BuildInfoString`, where the release type
is formatted through a `fmt` verb rather than called directly). -/
def fmtStringer (rt : ReleaseType) : String :=
  match rt.string with
  | .ok s => s
  | .panicked msg => "%!s(PANIC=String method: " ++ msg ++ ")"

/-- `Options` from src/log.go lines 25-37. -/
structure Options where
  BinaryName : String
  BugReportURL : String
  Debug : Bool
  Release : ReleaseType
  Version : String
  deriving DecidableEq, Repr

/-- Go's `fmt.Sprintln`: arguments joined by single spaces with a
trailing newline (arguments modelled as already-rendered strings). -/
def sprintln (v : List String) : String :=
  String.intercalate " " v ++ "\n"

/-- Go's `fmt.Sprint` on string operands: plain concatenation. -/
def sprint (v : List String) : String :=
  String.join v

/-- `Options.BuildInfoString` from src/log.go lines 80-82:
`"(<binary> v<version>, Release: <release>)"`. -/
def Options.BuildInfoString (o : Options) : String :=
  "(" ++ o.BinaryName ++ " v" ++ o.Version ++ ", Release: " ++ fmtStringer o.Release ++ ")"

/-- The observable effects of one run of the shared escalation logic
(`Options.Critical`, and the tail of `Logger.Severe`): the formatted
diagnostic string, whether a stack trace is printed, whether the string
is written to standard error, and whether the call panics. -/
structure EscalationResult where
  payload : String
  printsStack : Bool
  writesStderr : Bool
  panics : Bool
  deriving DecidableEq, Repr

/-- `Options.Critical` from src/log.go lines 88-97. -/
def Options.Critical (o : Options) (v : List String) : EscalationResult :=
  let s := "Critical error: " ++ o.BuildInfoString ++ " " ++ sprintln v
    ++ "Please submit a bug report here: " ++ o.BugReportURL ++ "\n"
  { payload := s
    printsStack := o.Release != Testing
    writesStderr := o.Release != Testing
    panics := o.Debug }

/-- The sink (`io.Writer`) backing a `Logger`: `ioutil.Discard`, a
closeable file, or an in-memory buffer. -/
inductive Sink where
  | discard
  | file
  | buffer
  deriving DecidableEq, Repr

/-- Lines that physically reach the sink medium when one line is handed
to it: the discard sink absorbs everything. -/
def sinkWrite (w : Sink) (line : String) : List String :=
  match w with
  | .discard => []
  | .file => [line]
  | .buffer => [line]

/-- `Logger` from src/log.go lines 17-21 (the embedded `*log.Logger`
line-writer primitive is external; we keep the sink and the options). -/
structure Logger where
  staticW : Sink
  staticOptions : Options
  deriving DecidableEq, Repr

/-- `Logger.BuildInfoString` from src/log.go lines 101-103. -/
def Logger.BuildInfoString (l : Logger) : String :=
  l.staticOptions.BuildInfoString

/-- `Logger.Critical` from src/log.go lines 119-122: the line handed to
`Output`, and the escalation delegated to `Options.Critical`. -/
def Logger.Critical (l : Logger) (v : List String) : String × EscalationResult :=
  ("CRITICAL: " ++ sprintln v, l.staticOptions.Critical v)

/-- `Logger.Debug` from src/log.go lines 126-130: lines handed to
`Output` (note: no prefix is added in the source). -/
def Logger.Debug (l : Logger) (v : List String) : List String :=
  if l.staticOptions.Debug then [sprint v] else []

/-- `Logger.Debugf` from src/log.go lines 134-138: `fmt.Sprintf` is
external, so the formatted string is a parameter (note: no prefix is
added in the source). -/
def Logger.Debugf (l : Logger) (formatted : String) : List String :=
  if l.staticOptions.Debug then [formatted] else []

/-- `Logger.Debugln` from src/log.go lines 142-146. -/
def Logger.Debugln (l : Logger) (v : List String) : List String :=
  if l.staticOptions.Debug then ["[DEBUG] " ++ sprintln v] else []

/-- `Logger.Errorf` from src/log.go lines 149-151 (the line handed to
`Output`; unconditional, independent of the receiver's options). -/
def Logger.Errorf (_l : Logger) (formatted : String) : List String :=
  [("[ERROR] " ++ formatted)]

/-- `Logger.Errorln` from src/log.go lines 154-156 (the line handed to
`Output`; unconditional, independent of the receiver's options). -/
def Logger.Errorln (_l : Logger) (v : List String) : List String :=
  [("[ERROR] " ++ sprintln v)]

/-- The observable effects of `Logger.Severe`. -/
structure SevereResult where
  outputLine : String
  summary : String
  printsStack : Bool
  writesStderr : Bool
  panics : Bool
  deriving DecidableEq, Repr

/-- `Logger.Severe` from src/log.go lines 163-173. -/
def Logger.Severe (l : Logger) (v : List String) : SevereResult :=
  let s := "Severe error: " ++ l.BuildInfoString ++ " " ++ sprintln v
  { outputLine := "SEVERE: " ++ sprintln v
    summary := s
    printsStack := l.staticOptions.Release != Testing
    writesStderr := l.staticOptions.Release != Testing
    panics := l.staticOptions.Debug }

/-- The observable effects of `Logger.Close`. -/
structure LoggerCloseResult where
  outputLine : String
  sinkCloseCalled : Bool
  ret : Option String
  deriving DecidableEq, Repr

/-- `Logger.Close` from src/log.go lines 107-113: `outputErr` is the
error of writing the shutdown line, `closeable` whether the sink is an
`io.Closer`, `closeErr` the sink close error. -/
def Logger.Close (closeable : Bool) (outputErr closeErr : Option String) : LoggerCloseResult :=
  { outputLine := "SHUTDOWN: Logging has terminated."
    sinkCloseCalled := closeable
    ret := if closeable then closeErr else outputErr }

/-- Result of `NewLogger`. -/
inductive NewLoggerResult where
  | ok (startupLine : String) (l : Logger)
  | err (msg : String)
  | panicked (payload : String)
  deriving DecidableEq, Repr

/-- `NewLogger` from src/log.go lines 177-190: validates the release
mode (the default branch calls `ReleaseType.String`, whose panic
propagates), then writes the startup line (`outputErr` its error). -/
def NewLogger (w : Sink) (o : Options) (outputErr : Option String) : NewLoggerResult :=
  if o.Release = Release ∨ o.Release = Dev ∨ o.Release = Testing then
    let message := "STARTUP: Logging has started. " ++ o.BinaryName ++ " Version " ++ o.Version
    match outputErr with
    | some e => .err e
    | none => .ok message { staticW := w, staticOptions := o }
  else
    match o.Release.string with
    | .panicked p => .panicked p
    | .ok s => .err ("invalid ReleaseType provided: " ++ s)

/-- `newDiscardLogger` from src/log.go lines 243-256, the value of the
`DiscardLogger` singleton (line 57). -/
def newDiscardLogger : Logger :=
  { staticW := .discard
    staticOptions :=
      { BinaryName := "discard"
        BugReportURL := ""
        Debug := true
        Release := Testing
        Version := "0" } }

/-- The `DiscardLogger` package variable from src/log.go line 57. -/
def DiscardLogger : Logger := newDiscardLogger

/-- The mutable state of a `closeableFile` (src/log.go lines 195-201):
the `closed` flag, plus whether the wrapped `os.File` handle has been
closed (to observe that `File.Close` was or was not reached). -/
structure closeableFile where
  closed : Bool
  fileClosed : Bool
  deriving DecidableEq, Repr

/-- The observable outcome of one `closeableFile.Write` call. `ret` is
`none` when the call panicked instead of returning. -/
structure FileWriteResult where
  state : closeableFile
  criticalMsg : Option String
  panicked : Bool
  writeAttempted : Bool
  ret : Option (Nat × Option String)
  deriving DecidableEq, Repr

/-- `closeableFile.Write` from src/log.go lines 221-229: under the read
lock, if already closed it invokes the `Critical` escalation (which
panics in debug mode) and otherwise still proceeds to the underlying
`File.Write`, whose result `(n, writeErr)` is an environment outcome. -/
def closeableFile.Write (o : Options) (cf : closeableFile) (n : Nat)
    (writeErr : Option String) : FileWriteResult :=
  if cf.closed then
    if (o.Critical ["cannot write to the file after it has been closed"]).panics then
      { state := cf
        criticalMsg := some "cannot write to the file after it has been closed"
        panicked := true, writeAttempted := false, ret := none }
    else
      { state := cf
        criticalMsg := some "cannot write to the file after it has been closed"
        panicked := false, writeAttempted := true, ret := some (n, writeErr) }
  else
    { state := cf, criticalMsg := none
      panicked := false, writeAttempted := true, ret := some (n, writeErr) }

/-- The observable outcome of one `closeableFile.Close` call. `ret` is
`none` when the call panicked; `some r` means the call returned `r`
(`r = none` meaning a nil error). -/
structure FileCloseResult where
  state : closeableFile
  criticalMsg : Option String
  panicked : Bool
  syncAttempted : Bool
  fileCloseAttempted : Bool
  ret : Option (Option String)
  deriving DecidableEq, Repr

/-- Body of `closeableFile.Close` after the sanity check (src/log.go
lines 212-217): sync, and only on success set `closed` and close the
file; yields (new state, whether `File.Close` ran, returned error). -/
def closeBody (cf : closeableFile) (syncErr closeErr : Option String) :
    closeableFile × Bool × Option String :=
  match syncErr with
  | some e => (cf, false, some e)
  | none => ({ cf with closed := true, fileClosed := true }, true, closeErr)

/-- `closeableFile.Close` from src/log.go lines 204-218: under the
exclusive lock, if already closed it invokes the `Critical` escalation
(which panics in debug mode) and otherwise still proceeds with the
sync-and-close body. -/
def closeableFile.Close (o : Options) (cf : closeableFile)
    (syncErr closeErr : Option String) : FileCloseResult :=
  if cf.closed then
    if (o.Critical ["cannot close the file; already closed"]).panics then
      { state := cf, criticalMsg := some "cannot close the file; already closed"
        panicked := true, syncAttempted := false, fileCloseAttempted := false
        ret := none }
    else
      let b := closeBody cf syncErr closeErr
      { state := b.1, criticalMsg := some "cannot close the file; already closed"
        panicked := false, syncAttempted := true, fileCloseAttempted := b.2.1
        ret := some b.2.2 }
  else
    let b := closeBody cf syncErr closeErr
    { state := b.1, criticalMsg := none
      panicked := false, syncAttempted := true, fileCloseAttempted := b.2.1
      ret := some b.2.2 }

/-- One operation on a `closeableFile`, with its environment outcomes
(the underlying file's write result, sync error, close error). -/
inductive CFOp where
  | write (n : Nat) (writeErr : Option String)
  | close (syncErr : Option String) (closeErr : Option String)
  deriving DecidableEq, Repr

/-- The state after one operation. -/
def CFStep (o : Options) (cf : closeableFile) : CFOp → closeableFile
  | .write n we => (closeableFile.Write o cf n we).state
  | .close se ce => (closeableFile.Close o cf se ce).state

/-- The state after a sequence of operations. -/
def CFRun (o : Options) (cf : closeableFile) : List CFOp → closeableFile
  | [] => cf
  | op :: ops => CFRun o (CFStep o cf op) ops

/-- Whether a `NewLogger` outcome is an ordinary error return. -/
def NewLoggerResult.isErr : NewLoggerResult → Bool
  | .err _ => true
  | _ => false

/-- A sample debug-off configuration for concrete instantiations. -/
def prodOptions : Options :=
  { BinaryName := "b", BugReportURL := "u", Debug := false
    Release := Release, Version := "1" }

/-- A sample debug-on configuration for concrete instantiations. -/
def devOptions : Options :=
  { BinaryName := "test", BugReportURL := "", Debug := true
    Release := Testing, Version := "0.0.1" }

/-! ## Theorems -/

/-- `closeableFile.Write` never changes the state, in particular the
`closed` flag (helper). -/
theorem write_state (o : Options) (cf : closeableFile) (n : Nat) (we : Option String) :
    (closeableFile.Write o cf n we).state = cf := by
  simp only [closeableFile.Write]
  split
  · split <;> rfl
  · rfl

/-- `closeableFile.Close` keeps the `closed` flag set once it is set
(helper). -/
theorem close_state_closed (o : Options) (cf : closeableFile) (se ce : Option String)
    (h : cf.closed = true) : ((closeableFile.Close o cf se ce).state).closed = true := by
  simp only [closeableFile.Close, closeBody, h, if_true]
  split
  · exact h
  · cases se <;> simp_all

/-- C2: constructing a `Logger` with the uninitialized sentinel release
mode (`ReleaseTypeError`) panics with "uninitialized release type",
regardless of the debug flag; it does not return a normal error. -/
theorem newLogger_sentinel_panics (w : Sink) (o : Options) (e : Option String)
    (h : o.Release = ReleaseTypeError) :
    NewLogger w o e = .panicked "uninitialized release type" := by
  simp [NewLogger, h, ReleaseType.string, ReleaseTypeError, Release, Dev, Testing]

/-- Witness for `newLogger_sentinel_panics`, at both debug values. -/
theorem newLogger_sentinel_panics_witness :
    NewLogger Sink.buffer
      { BinaryName := "b", BugReportURL := "", Debug := true
        Release := ReleaseTypeError, Version := "0.0.1" } none
      = NewLoggerResult.panicked "uninitialized release type" ∧
    NewLogger Sink.buffer
      { BinaryName := "b", BugReportURL := "", Debug := false
        Release := ReleaseTypeError, Version := "0.0.1" } none
      = NewLoggerResult.panicked "uninitialized release type" :=
  ⟨newLogger_sentinel_panics _ _ _ rfl, newLogger_sentinel_panics _ _ _ rfl⟩

/-- C1 counterexample: at the invalid non-sentinel release mode 4, the
constructor panics with "unknown release type" (the panic comes from
`ReleaseType.String` inside the error-formatting call) and does not
return a configuration error. -/
theorem newLogger_unknown_mode_counterexample :
    NewLogger Sink.buffer
      { BinaryName := "test", BugReportURL := "", Debug := false
        Release := 4, Version := "0.0.1" } none
      = NewLoggerResult.panicked "unknown release type" ∧
    NewLoggerResult.isErr (NewLogger Sink.buffer
      { BinaryName := "test", BugReportURL := "", Debug := false
        Release := 4, Version := "0.0.1" } none) = false :=
  ⟨rfl, rfl⟩

/-- C1 amended: for every configuration whose release mode is invalid
and not the sentinel, constructing a `Logger` panics with "unknown
release type" rather than returning a configuration error. -/
theorem newLogger_unknown_mode_panics (w : Sink) (o : Options) (e : Option String)
    (h0 : o.Release ≠ ReleaseTypeError) (h1 : o.Release ≠ Release)
    (h2 : o.Release ≠ Dev) (h3 : o.Release ≠ Testing) :
    NewLogger w o e = .panicked "unknown release type" := by
  simp [NewLogger, ReleaseType.string, h0, h1, h2, h3]

/-- Witness for `newLogger_unknown_mode_panics`. -/
theorem newLogger_unknown_mode_panics_witness :
    NewLogger Sink.file
      { BinaryName := "b", BugReportURL := "u", Debug := true
        Release := 4, Version := "1" } none
      = NewLoggerResult.panicked "unknown release type" :=
  newLogger_unknown_mode_panics _ _ _ (by decide) (by decide) (by decide) (by decide)

/-- C3: the `Critical` escalation formats the payload as
`"Critical error: " ++ build-info ++ " " ++ space-joined message with
trailing newline ++ "Please submit a bug report here: " ++ url ++ "\n"`;
it prints a stack trace and writes the payload to standard error exactly
when the release mode is not `Testing`; it panics exactly when the debug
flag is true; and `Logger.Critical` hands a `CRITICAL: `-prefixed line
to the sink and delegates to the same `Options.Critical` policy. -/
theorem critical_escalation_spec (o : Options) (l : Logger) (v : List String) :
    (o.Critical v).payload =
      "Critical error: " ++ o.BuildInfoString ++ " " ++ sprintln v
        ++ "Please submit a bug report here: " ++ o.BugReportURL ++ "\n" ∧
    ((o.Critical v).printsStack = true ↔ o.Release ≠ Testing) ∧
    ((o.Critical v).writesStderr = true ↔ o.Release ≠ Testing) ∧
    ((o.Critical v).panics = true ↔ o.Debug = true) ∧
    (l.Critical v).1 = "CRITICAL: " ++ sprintln v ∧
    (l.Critical v).2 = l.staticOptions.Critical v := by
  refine ⟨rfl, ?_, ?_, Iff.rfl, rfl, rfl⟩ <;> simp [Options.Critical, bne_iff_ne]

/-- C4 counterexample: with debug enabled, `Logger.Debug` hands the bare
concatenated message to the sink, and `[DEBUG] ` is not a prefix of it
(the source adds the prefix only in `Debugln`); `Debugf` likewise writes
the unprefixed formatted string. -/
theorem debug_methods_counterexample :
    Logger.Debug { staticW := Sink.buffer, staticOptions := devOptions } ["msg"]
      = ["msg"] ∧
    Logger.Debugf { staticW := Sink.buffer, staticOptions := devOptions } "msg"
      = ["msg"] ∧
    List.isPrefixOf "[DEBUG] ".data "msg".data = false := by
  refine ⟨rfl, rfl, by decide⟩

/-- C4 amended: when the debug flag is false all three of `Debug`,
`Debugf`, `Debugln` are complete no-ops; when it is true, `Debugln`
writes a `[DEBUG] `-prefixed line while `Debug` and `Debugf` write the
formatted message without a prefix. -/
theorem debug_methods_amended (l : Logger) (v : List String) (f : String) :
    (l.staticOptions.Debug = false →
      Logger.Debug l v = [] ∧ Logger.Debugf l f = [] ∧ Logger.Debugln l v = []) ∧
    (l.staticOptions.Debug = true →
      Logger.Debug l v = [sprint v] ∧ Logger.Debugf l f = [f] ∧
      Logger.Debugln l v = ["[DEBUG] " ++ sprintln v]) := by
  constructor <;> intro h <;>
    simp [Logger.Debug, Logger.Debugf, Logger.Debugln, h]

/-- Witness for `debug_methods_amended`, at both debug values. -/
theorem debug_methods_amended_witness :
    Logger.Debugln { staticW := Sink.buffer, staticOptions := devOptions } ["m"]
      = ["[DEBUG] m\n"] ∧
    Logger.Debugln { staticW := Sink.buffer, staticOptions := prodOptions } ["m"]
      = [] :=
  ⟨((debug_methods_amended _ ["m"] "f").2 rfl).2.2,
   ((debug_methods_amended _ ["m"] "f").1 rfl).2.2⟩

/-- C5: `Severe` always hands a `SEVERE: `-prefixed line to the sink;
its summary is exactly `"Severe error: " ++ build-info ++ " " ++
space-joined message with trailing newline` (no bug-report wording); it
prints a stack trace and writes the summary to standard error exactly
when the release mode is not `Testing`; and it panics with the summary
exactly when the debug flag is true. -/
theorem severe_spec (l : Logger) (v : List String) :
    (l.Severe v).outputLine = "SEVERE: " ++ sprintln v ∧
    (l.Severe v).summary = "Severe error: " ++ l.BuildInfoString ++ " " ++ sprintln v ∧
    ((l.Severe v).printsStack = true ↔ l.staticOptions.Release ≠ Testing) ∧
    ((l.Severe v).writesStderr = true ↔ l.staticOptions.Release ≠ Testing) ∧
    ((l.Severe v).panics = true ↔ l.staticOptions.Debug = true) := by
  refine ⟨rfl, rfl, ?_, ?_, Iff.rfl⟩ <;> simp [Logger.Severe, bne_iff_ne]

/-- C6: `Logger.Close` writes the shutdown line; if the sink is
closeable it closes the sink and returns the sink close error
(discarding the shutdown-line write error), otherwise it returns the
shutdown-line write error. -/
theorem logger_close_spec (closeable : Bool) (we ce : Option String) :
    (Logger.Close closeable we ce).outputLine = "SHUTDOWN: Logging has terminated." ∧
    (closeable = true →
      (Logger.Close closeable we ce).sinkCloseCalled = true ∧
      (Logger.Close closeable we ce).ret = ce) ∧
    (closeable = false →
      (Logger.Close closeable we ce).sinkCloseCalled = false ∧
      (Logger.Close closeable we ce).ret = we) := by
  refine ⟨rfl, ?_, ?_⟩ <;> intro h <;> simp [Logger.Close, h]

/-- Witness for `logger_close_spec`, for a closeable and a
non-closeable sink. -/
theorem logger_close_spec_witness :
    (Logger.Close true (some "werr") (some "cerr")).ret = some "cerr" ∧
    (Logger.Close false (some "werr") none).ret = some "werr" :=
  ⟨((logger_close_spec true (some "werr") (some "cerr")).2.1 rfl).2,
   ((logger_close_spec false (some "werr") none).2.2 rfl).2⟩

/-- C7: once the `closed` flag of a `closeableFile` is true, it stays
true after any sequence of `Write` and `Close` operations, whatever
their environment outcomes. -/
theorem closed_flag_monotone (o : Options) (cf : closeableFile) (ops : List CFOp)
    (h : cf.closed = true) : (CFRun o cf ops).closed = true := by
  induction ops generalizing cf with
  | nil => exact h
  | cons op ops ih =>
    apply ih
    cases op with
    | write n we => simpa [CFStep, write_state] using h
    | close se ce => simpa [CFStep] using close_state_closed o cf se ce h

/-- Witness for `closed_flag_monotone`. -/
theorem closed_flag_monotone_witness :
    (CFRun prodOptions { closed := true, fileClosed := true }
      [CFOp.write 3 none, CFOp.close none none, CFOp.write 0 (some "e")]).closed
      = true :=
  closed_flag_monotone _ _ _ rfl

/-- C8: on an already-closed `closeableFile`, `Write` and `Close` each
invoke the `Critical` escalation with their respective misuse message;
the call panics exactly when the debug flag is true; and when it does
not panic, the underlying operation is still attempted (the file write,
or the sync followed — on sync success — by the file close). -/
theorem misuse_escalation_spec (o : Options) (cf : closeableFile) (n : Nat)
    (we se ce : Option String) (h : cf.closed = true) :
    ((closeableFile.Write o cf n we).criticalMsg
        = some "cannot write to the file after it has been closed") ∧
    ((closeableFile.Write o cf n we).panicked = true ↔ o.Debug = true) ∧
    (o.Debug = false →
      (closeableFile.Write o cf n we).writeAttempted = true ∧
      (closeableFile.Write o cf n we).ret = some (n, we)) ∧
    ((closeableFile.Close o cf se ce).criticalMsg
        = some "cannot close the file; already closed") ∧
    ((closeableFile.Close o cf se ce).panicked = true ↔ o.Debug = true) ∧
    (o.Debug = false → (closeableFile.Close o cf se ce).syncAttempted = true) ∧
    (o.Debug = false → se = none →
      (closeableFile.Close o cf se ce).fileCloseAttempted = true) := by
  by_cases hD : o.Debug = true
  · simp [closeableFile.Write, closeableFile.Close, closeBody,
      Options.Critical, h, hD]
  · simp [closeableFile.Write, closeableFile.Close, closeBody,
      Options.Critical, h, hD]
    rintro rfl
    rfl

/-- Witness for `misuse_escalation_spec` with debug off. -/
theorem misuse_escalation_spec_witness :
    (closeableFile.Write prodOptions { closed := true, fileClosed := true } 5 none).criticalMsg
      = some "cannot write to the file after it has been closed" ∧
    (closeableFile.Write prodOptions { closed := true, fileClosed := true } 5 none).writeAttempted
      = true := by
  have h := misuse_escalation_spec prodOptions
    { closed := true, fileClosed := true } 5 none none none rfl
  exact ⟨h.1, (h.2.2.1 rfl).1⟩

/-- C9: the discard-sink singleton logger has debug on and release mode
`Testing`, its sink absorbs every line, and for every message its
`Critical` call panics with payload
`"Critical error: (discard v0, Release: testing) " ++ message ++
"Please submit a bug report here: \n"`. -/
theorem discard_logger_spec :
    DiscardLogger.staticOptions.Debug = true ∧
    DiscardLogger.staticOptions.Release = Testing ∧
    (∀ line, sinkWrite DiscardLogger.staticW line = []) ∧
    ∀ v, (DiscardLogger.Critical v).2.panics = true ∧
      (DiscardLogger.Critical v).2.payload
        = "Critical error: (discard v0, Release: testing) " ++ sprintln v
          ++ "Please submit a bug report here: \n" := by
  refine ⟨rfl, rfl, fun line => rfl, fun v => ⟨rfl, ?_⟩⟩
  show "Critical error: " ++ "(discard v0, Release: testing)" ++ " " ++ sprintln v
      ++ "Please submit a bug report here: " ++ "" ++ "\n" = _
  rw [show ("Critical error: " ++ "(discard v0, Release: testing)" ++ " " : String)
        = "Critical error: (discard v0, Release: testing) " from rfl]
  rw [String.append_empty, String.append_assoc]
  rfl

/-- C10: closing a not-yet-closed `closeableFile` whose sync fails
returns the sync error and leaves the state unchanged: the `closed` flag
stays false, the underlying file close is not attempted, no misuse
escalation fires, and a retried `Close` does not fire one either. -/
theorem close_sync_fail_spec (o : Options) (cf : closeableFile) (e : String)
    (ce se2 ce2 : Option String) (h : cf.closed = false) :
    (closeableFile.Close o cf (some e) ce).ret = some (some e) ∧
    (closeableFile.Close o cf (some e) ce).state = cf ∧
    ((closeableFile.Close o cf (some e) ce).state).closed = false ∧
    (closeableFile.Close o cf (some e) ce).fileCloseAttempted = false ∧
    (closeableFile.Close o cf (some e) ce).criticalMsg = none ∧
    (closeableFile.Close o ((closeableFile.Close o cf (some e) ce).state) se2 ce2).criticalMsg
      = none := by
  simp [closeableFile.Close, closeBody, h]

/-- Witness for `close_sync_fail_spec`. -/
theorem close_sync_fail_spec_witness :
    (closeableFile.Close prodOptions { closed := false, fileClosed := false }
        (some "disk full") none).ret = some (some "disk full") ∧
    ((closeableFile.Close prodOptions { closed := false, fileClosed := false }
        (some "disk full") none).state).closed = false := by
  have h := close_sync_fail_spec prodOptions
    { closed := false, fileClosed := false } "disk full" none none none rfl
  exact ⟨h.1, h.2.2.1⟩

end UploLog
